import Mathlib

/-!
Verification development for the Tool-Pattern repository
(`llm_tool_pattern_starter.py`): a minimal single-turn function-calling
agent.  The Python code is shallowly embedded: JSON/Python values become
the inductive `JValue`, the standard-library helpers `json.loads` /
`json.dumps` and the regex tag stripper are modelled as executable Lean
functions, fallible Python code returns `Except String` (the error
carries the exception message), and `None`-or-string results become
`Option String`.
-/

/-- JSON values, doubling as the Python values the agent manipulates
(dicts, lists, strings, numbers, booleans, None).  Python dicts are
association lists in insertion order; finite numbers are modelled as
exact rationals (every numeric claim in scope evaluates exactly), and
the non-finite floats that Python's json decoder produces from its
default handling of the constants `NaN`, `Infinity` and `-Infinity` are
the distinguished values `nan` and `inf`. -/
inductive JValue where
| null : JValue
| bool (b : Bool) : JValue
| num (q : Rat) : JValue
| nan : JValue
| inf (neg : Bool) : JValue
| str (s : String) : JValue
| arr (xs : List JValue) : JValue
| obj (fields : List (String × JValue)) : JValue

mutual

/-- Structural equality test on values, underpinning the model's
decidable equality.  It decides representation equality of the
embedding; Python's `==` agrees on every comparison the claims mention
(Python's NaN compares unequal to itself, but nothing in scope compares
NaN for equality). -/
def beqVal : JValue → JValue → Bool
| JValue.null, JValue.null => true
| JValue.bool a, JValue.bool b => a = b
| JValue.num a, JValue.num b => a = b
| JValue.nan, JValue.nan => true
| JValue.inf a, JValue.inf b => a = b
| JValue.str a, JValue.str b => a = b
| JValue.arr xs, JValue.arr ys => beqValList xs ys
| JValue.obj fs, JValue.obj gs => beqValFields fs gs
| _, _ => false

/-- Elementwise equality of value lists. -/
def beqValList : List JValue → List JValue → Bool
| [], [] => true
| x :: xs, y :: ys => beqVal x y && beqValList xs ys
| _, _ => false

/-- Elementwise equality of field lists. -/
def beqValFields : List (String × JValue) → List (String × JValue) → Bool
| [], [] => true
| (k, v) :: fs, (k2, v2) :: gs => k = k2 && beqVal v v2 && beqValFields fs gs
| _, _ => false

end

mutual

theorem beqVal_iff : ∀ (a b : JValue), beqVal a b = true ↔ a = b
| JValue.null, b => by cases b <;> simp [beqVal]
| JValue.bool x, b => by cases b <;> simp [beqVal]
| JValue.num x, b => by cases b <;> simp [beqVal]
| JValue.nan, b => by cases b <;> simp [beqVal]
| JValue.inf x, b => by cases b <;> simp [beqVal]
| JValue.str x, b => by cases b <;> simp [beqVal]
| JValue.arr xs, b => by
    cases b <;> simp [beqVal]
    exact beqValList_iff xs _
| JValue.obj fs, b => by
    cases b <;> simp [beqVal]
    exact beqValFields_iff fs _

theorem beqValList_iff : ∀ (xs ys : List JValue), beqValList xs ys = true ↔ xs = ys
| [], ys => by cases ys <;> simp [beqValList]
| x :: xs, [] => by simp [beqValList]
| x :: xs, y :: ys => by
    simp [beqValList, beqVal_iff x y, beqValList_iff xs ys]

theorem beqValFields_iff : ∀ (fs gs : List (String × JValue)), beqValFields fs gs = true ↔ fs = gs
| [], gs => by cases gs <;> simp [beqValFields]
| f :: fs, [] => by simp [beqValFields]
| (k, v) :: fs, (k2, v2) :: gs => by
    simp [beqValFields, beqVal_iff v v2, beqValFields_iff fs gs]

end

instance : DecidableEq JValue := fun a b =>
  decidable_of_iff (beqVal a b = true) (beqVal_iff a b)

/-- Addition of rationals through `mkRat`, definitionally computable
(the library's `Rat.add` is sealed against reduction, which would keep
concrete runs from evaluating inside proofs). -/
def ratAdd (a b : Rat) : Rat :=
  mkRat (a.num * (b.den : Int) + b.num * (a.den : Int)) (a.den * b.den)

/-- Negation of a rational through `mkRat`, definitionally computable. -/
def ratNeg (a : Rat) : Rat := mkRat (-a.num) a.den

/-- Division of rationals through `mkRat`, definitionally computable;
division by zero yields zero, exactly as the library's division does
(no division by zero is reachable in the embedded code). -/
def ratDiv (a b : Rat) : Rat :=
  if 0 ≤ b.num then mkRat (a.num * (b.den : Int)) (a.den * b.num.toNat)
  else mkRat (-(a.num * (b.den : Int))) (a.den * (-b.num).toNat)

/-- The strict order on rationals by cross multiplication,
definitionally computable. -/
def ratLt (a b : Rat) : Bool := a.num * (b.den : Int) < b.num * (a.den : Int)

/-- Python `v == s` for a string literal `s`: only a string can compare
equal to a string.  This structural test is used in the definitions in
place of the generic equality instance so that every concrete run
evaluates by kernel reduction. -/
def isStrEq (v : JValue) (s : String) : Bool :=
  match v with
  | JValue.str t => t == s
  | _ => false

/-- Python `d.get(k, dflt)` on an association-list dict: the most recent
binding of `k` wins (later assignments overwrite earlier ones). -/
def dictGet (kvs : List (String × JValue)) (k : String) (dflt : JValue) : JValue :=
  match List.find? (fun p => p.1 == k) kvs.reverse with
  | some p => p.2
  | none => dflt

/-- Python `k in d` for a dict. -/
def dictHasKey (kvs : List (String × JValue)) (k : String) : Bool :=
  List.any kvs (fun p => p.1 == k)

/-- Python truthiness of a value: `None`, `False`, `0`, `""`, `[]` and
`\x7b\x7d` are falsy, everything else truthy. -/
def truthy : JValue → Bool
| JValue.null => false
| JValue.bool b => b
| JValue.num q => q.num != 0
| JValue.nan => true
| JValue.inf _ => true
| JValue.str s => s != ""
| JValue.arr xs => !xs.isEmpty
| JValue.obj kvs => !kvs.isEmpty

/-- Match a pattern at the head of a character list: returns the rest of
the list when the pattern is a leading segment, and `none` otherwise. -/
def matchAt : List Char → List Char → Option (List Char)
| [], l => some l
| _ :: _, [] => none
| p :: ps, c :: cs => if p = c then matchAt ps cs else none

/-- Substring occurrence test on character lists, used to state what it
means for an input to contain one of the tool-call delimiter tags. -/
def occursIn (pat : List Char) : List Char → Bool
| [] => (matchAt pat []).isSome
| c :: cs => (matchAt pat (c :: cs)).isSome || occursIn pat cs

/-- Characters of the opening delimiter tag. -/
def openTagChars : List Char := "<tool_call>".toList

/-- Characters of the closing delimiter tag. -/
def closeTagChars : List Char := "</tool_call>".toList

/-- Fueled worker for the regex substitution: at each position remove a
leading occurrence of either tag (the regex tries the variant with the
slash first) and otherwise keep the character.  Fuel at least the length
of the list makes the fuel bound unreachable. -/
def stripTagsFuel : Nat → List Char → List Char
| 0, l => l
| _ + 1, [] => []
| fuel + 1, c :: cs =>
  match matchAt closeTagChars (c :: cs) with
  | some rest => stripTagsFuel fuel rest
  | none =>
    match matchAt openTagChars (c :: cs) with
    | some rest => stripTagsFuel fuel rest
    | none => c :: stripTagsFuel fuel cs

/-- Model of the Python line `re.sub(r'</?tool_call>', '', s)`: every
occurrence of `<tool_call>` or `</tool_call>` is deleted. -/
def pyStripTags (s : String) : List Char :=
  stripTagsFuel s.toList.length s.toList

/-- Whether the input contains the opening or the closing delimiter tag
as a substring. -/
def containsToolCallTag (s : String) : Bool :=
  occursIn openTagChars s.toList || occursIn closeTagChars s.toList

/-- JSON whitespace characters accepted between tokens. -/
def isWs (c : Char) : Bool := c = ' ' || c = '\t' || c = '\n' || c = '\r'

/-- Drop leading JSON whitespace. -/
def skipWs : List Char → List Char
| [] => []
| c :: cs => if isWs c then skipWs cs else c :: cs

/-- Decimal digit value of a character, if any. -/
def digitVal (c : Char) : Option Nat :=
  if '0' ≤ c ∧ c ≤ '9' then some (c.toNat - '0'.toNat) else none

/-- Take a maximal run of decimal digits off the front of the list. -/
def takeDigits : List Char → List Nat × List Char
| [] => ([], [])
| c :: cs =>
  match digitVal c with
  | some d =>
    let p := takeDigits cs
    (d :: p.1, p.2)
  | none => ([], c :: cs)

/-- Value of a digit run read in base 10. -/
def digitsToNat (ds : List Nat) : Nat := List.foldl (fun a d => a * 10 + d) 0 ds

/-- Hexadecimal digit value of a character, if any. -/
def hexVal (c : Char) : Option Nat :=
  if '0' ≤ c ∧ c ≤ '9' then some (c.toNat - '0'.toNat)
  else if 'a' ≤ c ∧ c ≤ 'f' then some (c.toNat - 'a'.toNat + 10)
  else if 'A' ≤ c ∧ c ≤ 'F' then some (c.toNat - 'A'.toNat + 10)
  else none

/-- Body of a JSON string, entered just past the opening quote: plain
characters up to the closing quote, with the standard escapes.  Raw
control characters are rejected, as Python's strict decoder does.  A
lone `\u` escape is decoded without surrogate pairing, a simplification
no input in this development exercises. -/
def parseStrBody : Nat → List Char → Option (String × List Char)
| 0, _ => none
| _ + 1, [] => none
| fuel + 1, c :: cs =>
  if c = '"' then some ("", cs)
  else if c = '\\' then
    match cs with
    | [] => none
    | e :: cs2 =>
      if e = 'u' then
        match cs2 with
        | h1 :: h2 :: h3 :: h4 :: cs3 =>
          match hexVal h1, hexVal h2, hexVal h3, hexVal h4 with
          | some a, some b, some c2, some d =>
            match parseStrBody fuel cs3 with
            | some (s, r2) => some (String.singleton (Char.ofNat (((a * 16 + b) * 16 + c2) * 16 + d)) ++ s, r2)
            | none => none
          | _, _, _, _ => none
        | _ => none
      else
        let ch : Option Char :=
          if e = '"' then some '"'
          else if e = '\\' then some '\\'
          else if e = '/' then some '/'
          else if e = 'b' then some '\x08'
          else if e = 'f' then some '\x0c'
          else if e = 'n' then some '\n'
          else if e = 'r' then some '\r'
          else if e = 't' then some '\t'
          else none
        match ch with
        | some ch2 =>
          match parseStrBody fuel cs2 with
          | some (s, r2) => some (String.singleton ch2 ++ s, r2)
          | none => none
        | none => none
  else if c.toNat < 32 then none
  else
    match parseStrBody fuel cs with
    | some (s, r2) => some (String.singleton c ++ s, r2)
    | none => none

/-- A JSON number: optional minus, an integer part with no leading
zeros, an optional fraction and an optional exponent, valued exactly as
a rational.  Python's non-standard constants `NaN`, `Infinity` and
`-Infinity` are not numbers in this grammar; `parseVal` recognizes them
separately, exactly as Python's decoder does by default. -/
def parseNumber (l : List Char) : Option (JValue × List Char) :=
  let sign : Bool × List Char :=
    match l with
    | '-' :: rest => (true, rest)
    | _ => (false, l)
  match sign.2 with
  | [] => none
  | c :: cs =>
    match digitVal c with
    | none => none
    | some d =>
      let p1 := takeDigits cs
      if d = 0 ∧ p1.1 ≠ [] then none
      else
        let frac : List Nat × List Char :=
          match p1.2 with
          | '.' :: fr =>
            let pf := takeDigits fr
            if pf.1 = [] then ([], p1.2) else (pf.1, pf.2)
          | _ => ([], p1.2)
        let ex : Int × List Char :=
          match frac.2 with
          | e :: er =>
            if e = 'e' ∨ e = 'E' then
              let se : Int × List Char :=
                match er with
                | '+' :: t => (1, t)
                | '-' :: t => (-1, t)
                | _ => (1, er)
              let pe := takeDigits se.2
              if pe.1 = [] then (0, frac.2) else (se.1 * (digitsToNat pe.1 : Int), pe.2)
            else (0, frac.2)
          | [] => (0, frac.2)
        let mant : Nat := digitsToNat (d :: p1.1) * 10 ^ frac.1.length + digitsToNat frac.1
        let expon : Int := ex.1 - (frac.1.length : Int)
        let mag : Rat :=
          if 0 ≤ expon then mkRat ((mant * 10 ^ expon.toNat : Nat) : Int) 1
          else ratDiv (mkRat (mant : Int) 1) (mkRat (((10 ^ (-expon).toNat : Nat)) : Int) 1)
        some (JValue.num (if sign.1 then ratNeg mag else mag), ex.2)

mutual

/-- Fueled recursive-descent JSON value parser (the model of Python's
`json.loads` grammar): leading whitespace, then an object, array,
string, literal, non-standard constant or number, returning the value
and the unconsumed rest.  Python's decoder accepts `NaN`, `Infinity`
and `-Infinity` by default; they decode to the non-finite float values. -/
def parseVal : Nat → List Char → Option (JValue × List Char)
| 0, _ => none
| fuel + 1, l =>
  match skipWs l with
  | '\x7b' :: rest =>
    match skipWs rest with
    | '\x7d' :: r2 => some (JValue.obj [], r2)
    | r1 =>
      match parseMembers fuel r1 with
      | some (kvs, r2) => some (JValue.obj kvs, r2)
      | none => none
  | '[' :: rest =>
    match skipWs rest with
    | ']' :: r2 => some (JValue.arr [], r2)
    | r1 =>
      match parseItems fuel r1 with
      | some (xs, r2) => some (JValue.arr xs, r2)
      | none => none
  | '"' :: rest =>
    match parseStrBody (rest.length + 1) rest with
    | some (s, r2) => some (JValue.str s, r2)
    | none => none
  | 't' :: 'r' :: 'u' :: 'e' :: r => some (JValue.bool true, r)
  | 'f' :: 'a' :: 'l' :: 's' :: 'e' :: r => some (JValue.bool false, r)
  | 'n' :: 'u' :: 'l' :: 'l' :: r => some (JValue.null, r)
  | 'N' :: 'a' :: 'N' :: r => some (JValue.nan, r)
  | 'I' :: 'n' :: 'f' :: 'i' :: 'n' :: 'i' :: 't' :: 'y' :: r => some (JValue.inf false, r)
  | '-' :: 'I' :: 'n' :: 'f' :: 'i' :: 'n' :: 'i' :: 't' :: 'y' :: r => some (JValue.inf true, r)
  | l2 => parseNumber l2

/-- Members of a JSON object after the opening brace (at least one):
string key, colon, value, then a comma and more members or the closing
brace. -/
def parseMembers : Nat → List Char → Option (List (String × JValue) × List Char)
| 0, _ => none
| fuel + 1, l =>
  match skipWs l with
  | '"' :: rest =>
    match parseStrBody (rest.length + 1) rest with
    | some (k, r1) =>
      match skipWs r1 with
      | ':' :: r2 =>
        match parseVal fuel r2 with
        | some (v, r3) =>
          match skipWs r3 with
          | ',' :: r4 =>
            match parseMembers fuel r4 with
            | some (kvs, r5) => some ((k, v) :: kvs, r5)
            | none => none
          | '\x7d' :: r4 => some ([(k, v)], r4)
          | _ => none
        | none => none
      | _ => none
    | none => none
  | _ => none

/-- Items of a JSON array after the opening bracket (at least one):
value, then a comma and more items or the closing bracket. -/
def parseItems : Nat → List Char → Option (List JValue × List Char)
| 0, _ => none
| fuel + 1, l =>
  match parseVal fuel l with
  | some (v, r1) =>
    match skipWs r1 with
    | ',' :: r2 =>
      match parseItems fuel r2 with
      | some (xs, r3) => some (v :: xs, r3)
      | none => none
    | ']' :: r2 => some ([v], r2)
    | _ => none
  | none => none

end

/-- Decode a whole character list as one JSON document: a value with
nothing but whitespace after it.  The fuel bound exceeds any possible
recursion depth, so it never cuts a parse short. -/
def jsonDecodeChars (l : List Char) : Option JValue :=
  match parseVal (2 * l.length + 2) l with
  | some (v, rest) => if skipWs rest = [] then some v else none
  | none => none

/-- Model of Python `json.loads` restricted to success-or-failure: a
decoded value, or `none` where Python raises. -/
def json_loads (s : String) : Option JValue := jsonDecodeChars s.toList

/-- Model of `parse_tool_call` (`llm_tool_pattern_starter.py` lines
13-20): delete every `<tool_call>`/`</tool_call>` tag, then attempt a
JSON decode, returning `none` where Python returns `None`. -/
def parse_tool_call (tool_call_str : String) : Option JValue :=
  jsonDecodeChars (pyStripTags tool_call_str)

/-- Lowercase hexadecimal digit. -/
def hexDigit (n : Nat) : Char :=
  if n < 10 then Char.ofNat ('0'.toNat + n) else Char.ofNat ('a'.toNat + n - 10)

/-- Four-digit lowercase hexadecimal rendering of a code point. -/
def hex4 (n : Nat) : String :=
  String.mk [hexDigit (n / 4096 % 16), hexDigit (n / 256 % 16), hexDigit (n / 16 % 16), hexDigit (n % 16)]

/-- Escaping of one character inside a dumped JSON string, following
Python's default `ensure_ascii` serializer: the two-character escapes
for quote, backslash and common controls, and `\u` escapes for other
controls and all non-ASCII characters (astral characters would need a
surrogate pair; no dumped string in this development contains one). -/
def escChar (c : Char) : String :=
  if c = '"' then "\\\""
  else if c = '\\' then "\\\\"
  else if c = '\n' then "\\n"
  else if c = '\r' then "\\r"
  else if c = '\t' then "\\t"
  else if c = '\x08' then "\\b"
  else if c = '\x0c' then "\\f"
  else if c.toNat < 32 ∨ 126 < c.toNat then "\\u" ++ hex4 c.toNat
  else String.singleton c

/-- A dumped JSON string with its surrounding quotes. -/
def dumpsStr (s : String) : String :=
  "\"" ++ String.join (List.map escChar s.toList) ++ "\""

/-- A dumped JSON number.  Integers print as Python ints do; a
non-integral rational stands for a float and is rendered as a fraction,
a presentation-only simplification (every number dumped in the claims in
scope is an integer). -/
def dumpsNum (q : Rat) : String :=
  if q.den = 1 then toString q.num else toString q

mutual

/-- Model of Python `json.dumps` with its default separators: item
separator comma-space, key separator colon-space. -/
def json_dumps : JValue → String
| JValue.null => "null"
| JValue.bool true => "true"
| JValue.bool false => "false"
| JValue.num q => dumpsNum q
| JValue.nan => "NaN"
| JValue.inf false => "Infinity"
| JValue.inf true => "-Infinity"
| JValue.str s => dumpsStr s
| JValue.arr xs => "[" ++ dumpsItems xs ++ "]"
| JValue.obj fs => "\x7b" ++ dumpsFields fs ++ "\x7d"

/-- Comma-separated dumped array items. -/
def dumpsItems : List JValue → String
| [] => ""
| [x] => json_dumps x
| x :: y :: xs => json_dumps x ++ ", " ++ dumpsItems (y :: xs)

/-- Comma-separated dumped object fields. -/
def dumpsFields : List (String × JValue) → String
| [] => ""
| [(k, v)] => dumpsStr k ++ ": " ++ json_dumps v
| (k, v) :: f :: fs => dumpsStr k ++ ": " ++ json_dumps v ++ ", " ++ dumpsFields (f :: fs)

end

/-- A Python function object as the agent sees one: its `__name__`, its
`__doc__`, the optional `parameters`/`returns` attributes read by
`getattr`, the optional `tool_definition` attribute the decorator
attaches, and its behavior on keyword arguments.  A call returns a value
or raises; `Except.error` carries the exception message. -/
structure PyFunc where
  name : String
  doc : Option String
  parameters : Option JValue
  returns : Option JValue
  tool_definition : Option JValue
  call : List (String × JValue) → Except String JValue

/-- The metadata dict the `tool` decorator builds (lines 44-49):
`name` from `__name__`, `description` verbatim from `__doc__` (null for
a missing docstring), `parameters`/`returns` from the attributes with an
empty-dict default. -/
def mkToolDefinition (func : PyFunc) : JValue :=
  JValue.obj
    [("name", JValue.str func.name),
     ("description", match func.doc with | some d => JValue.str d | none => JValue.null),
     ("parameters", func.parameters.getD (JValue.obj [])),
     ("returns", func.returns.getD (JValue.obj []))]

/-- Model of the `tool` decorator (lines 42-50): attach the metadata
dict as the `tool_definition` attribute and hand back the same callable. -/
def tool (func : PyFunc) : PyFunc :=
  { func with tool_definition := some (mkToolDefinition func) }

/-- One role-tagged chat message. -/
structure Message where
  role : String
  content : String
deriving DecidableEq

/-- The argument-reconciliation step of `ToolAgent.run` (lines 87-89):
for the one hard-coded name `add` rebuild the argument dict as
`x := arguments.get("num1")`, `y := arguments.get("num2")`; every other
name passes its arguments through untouched.  When the name is `add` but
the parsed `arguments` value is not a dict, Python's attribute lookup
`.get` raises an uncaught `AttributeError`. -/
def reconcile_arguments (func_name : JValue) (arguments : JValue) : Except String JValue :=
  if isStrEq func_name "add" then
    match arguments with
    | JValue.obj kvs =>
      Except.ok (JValue.obj [("x", dictGet kvs "num1" JValue.null), ("y", dictGet kvs "num2" JValue.null)])
    | _ => Except.error "AttributeError: object has no attribute get"
  else Except.ok arguments

/-- The call `tool(**arguments)` (line 94): keyword-expanding a dict
invokes the callable on it; expanding any non-dict raises `TypeError`
(inside the dispatcher's `try`, so this error is always caught). -/
def invoke (func : PyFunc) (arguments : JValue) : Except String JValue :=
  match arguments with
  | JValue.obj kvs => func.call kvs
  | _ => Except.error "TypeError: argument after ** must be a mapping"

/-- Model of `ToolAgent.run` (lines 82-107) from the point where the
first model reply `assistant_reply` is in hand.  `model2` stands for the
opaque second chat-completion request, `messages` for the conversation
built so far (system prompt plus user message).  The result is either
`Except.error` (an exception escaping `run`) or `Except.ok` of the
returned value: `some` a string, or `none` for Python's implicit `None`
when the parsed call names no registered tool and the `for` loop falls
through. -/
def run_after_first (tools : List PyFunc) (model2 : List Message → String)
    (messages : List Message) (assistant_reply : String) : Except String (Option String) :=
  match parse_tool_call assistant_reply with
  | some tc =>
    if truthy tc then
      match tc with
      | JValue.obj kvs =>
        let func_name := dictGet kvs "name" JValue.null
        match reconcile_arguments func_name (dictGet kvs "arguments" (JValue.obj [])) with
        | Except.error e => Except.error e
        | Except.ok args =>
          match List.find? (fun t => isStrEq func_name t.name) tools with
          | some t =>
            match invoke t args with
            | Except.ok result =>
              let msgs := messages ++
                [⟨"assistant", assistant_reply⟩,
                 ⟨"user", "The result of " ++ t.name ++ " is: " ++ json_dumps result⟩]
              Except.ok (some (model2 msgs))
            | Except.error e =>
              Except.ok (some (json_dumps (JValue.obj [("error", JValue.str e)])))
          | none => Except.ok none
      | _ => Except.error "AttributeError: object has no attribute get"
    else Except.ok (some assistant_reply)
  | none => Except.ok (some assistant_reply)

/-- Extended numbers: the arithmetic domain of Python's numeric values
in scope — exact rationals for ints, bools and finite floats, plus the
IEEE non-finite floats. -/
inductive ENum where
| nan : ENum
| inf (neg : Bool) : ENum
| fin (q : Rat) : ENum

/-- The numeric view of a value under Python arithmetic: booleans are
the integers 0 and 1, finite numbers are themselves, the non-finite
floats are carried through; nothing else is numeric. -/
def asENum : JValue → Option ENum
| JValue.num q => some (ENum.fin q)
| JValue.bool b => some (ENum.fin (if b then 1 else 0))
| JValue.nan => some ENum.nan
| JValue.inf b => some (ENum.inf b)
| _ => none

/-- The value an extended number denotes. -/
def eNumVal : ENum → JValue
| ENum.nan => JValue.nan
| ENum.inf b => JValue.inf b
| ENum.fin q => JValue.num q

/-- IEEE addition on extended numbers: NaN absorbs, opposite infinities
give NaN, either infinity dominates any finite value. -/
def eAdd : ENum → ENum → ENum
| ENum.nan, _ => ENum.nan
| _, ENum.nan => ENum.nan
| ENum.inf a, ENum.inf b => if a = b then ENum.inf a else ENum.nan
| ENum.inf a, ENum.fin _ => ENum.inf a
| ENum.fin _, ENum.inf b => ENum.inf b
| ENum.fin x, ENum.fin y => ENum.fin (ratAdd x y)

/-- IEEE strict order on extended numbers: every comparison involving
NaN is false, minus infinity is below and plus infinity above every
other value. -/
def eLt : ENum → ENum → Bool
| ENum.nan, _ => false
| _, ENum.nan => false
| ENum.inf a, ENum.inf b => a && !b
| ENum.inf a, ENum.fin _ => a
| ENum.fin _, ENum.inf b => !b
| ENum.fin x, ENum.fin y => ratLt x y

/-- Python `+` on two values: numeric addition (booleans as ints, the
non-finite floats by IEEE rules), string concatenation, list
concatenation, and a `TypeError` elsewhere. -/
def pyAdd (a b : JValue) : Except String JValue :=
  match asENum a, asENum b with
  | some x, some y => Except.ok (eNumVal (eAdd x y))
  | _, _ =>
    match a, b with
    | JValue.str x, JValue.str y => Except.ok (JValue.str (x ++ y))
    | JValue.arr x, JValue.arr y => Except.ok (JValue.arr (x ++ y))
    | _, _ => Except.error "TypeError: unsupported operand type(s) for +"

/-- Keyword binding plus body of `add(x, y)` (lines 180-182): the call
raises `TypeError` on an unexpected or missing keyword, and otherwise
returns `x + y`. -/
def add_call (kwargs : List (String × JValue)) : Except String JValue :=
  if List.any kwargs (fun p => !(p.1 == "x" || p.1 == "y")) then
    Except.error "TypeError: add() got an unexpected keyword argument"
  else
    match List.find? (fun p => p.1 == "x") kwargs.reverse,
          List.find? (fun p => p.1 == "y") kwargs.reverse with
    | some px, some py => pyAdd px.2 py.2
    | _, _ => Except.error "TypeError: add() missing a required argument"

/-- The undecorated `add` function object: name, docstring, no
`parameters`/`returns` attributes, no metadata yet. -/
def addFunc : PyFunc :=
  { name := "add", doc := some "Add two numbers.", parameters := none,
    returns := none, tool_definition := none, call := add_call }

/-- Python `"score" in article`: key membership for a dict, element
membership for a list, substring test for a string, `TypeError`
elsewhere. -/
def scoreMember (article : JValue) : Except String Bool :=
  match article with
  | JValue.obj kvs => Except.ok (dictHasKey kvs "score")
  | JValue.arr xs => Except.ok (List.any xs (fun v => isStrEq v "score"))
  | JValue.str s => Except.ok (occursIn "score".toList s.toList)
  | _ => Except.error "TypeError: argument is not iterable"

/-- Python `article.get("score", 0)`: only dicts have `.get`; anything
else raises `AttributeError`. -/
def getScoreDefaultZero (article : JValue) : Except String JValue :=
  match article with
  | JValue.obj kvs => Except.ok (dictGet kvs "score" (JValue.num 0))
  | _ => Except.error "AttributeError: object has no attribute get"

/-- The comprehension on line 142: left to right, keep
`article.get("score", 0)` for each article containing a `score` key. -/
def collectScores : List JValue → Except String (List JValue)
| [] => Except.ok []
| a :: rest =>
  match scoreMember a with
  | Except.error e => Except.error e
  | Except.ok b =>
    if b then
      match getScoreDefaultZero a with
      | Except.error e => Except.error e
      | Except.ok v =>
        match collectScores rest with
        | Except.error e => Except.error e
        | Except.ok tl => Except.ok (v :: tl)
    else collectScores rest

/-- Python `sum` over the collected scores: numeric values (booleans as
ints, the non-finite floats by IEEE rules) accumulate, anything else
raises `TypeError`. -/
def sumNums : List JValue → Except String ENum
| [] => Except.ok (ENum.fin 0)
| v :: rest =>
  match asENum v with
  | none => Except.error "TypeError: unsupported operand type(s) for +"
  | some q =>
    match sumNums rest with
    | Except.error e => Except.error e
    | Except.ok t => Except.ok (eAdd q t)

/-- Python `>` on the score keys: numbers (booleans included, and the
non-finite floats under IEEE rules, every NaN comparison false) compare
numerically, strings lexicographically by code point, any other pair
raises `TypeError`.  Python additionally orders lists elementwise; the
shipped pipeline never compares list-valued scores, and the model treats
such a comparison as the error case. -/
def jGreater (a b : JValue) : Except String Bool :=
  match asENum a, asENum b with
  | some x, some y => Except.ok (eLt y x)
  | _, _ =>
    match a, b with
    | JValue.str x, JValue.str y => Except.ok (decide (y < x))
    | _, _ => Except.error "TypeError: comparison not supported between instances"

/-- Fold of Python `max` over the remaining articles, keeping the
current best and its key: a later article replaces the best only when
its key is strictly greater. -/
def maxGo : List JValue → JValue → JValue → Except String JValue
| [], best, _ => Except.ok best
| x :: rest, best, bk =>
  match getScoreDefaultZero x with
  | Except.error e => Except.error e
  | Except.ok kx =>
    match jGreater kx bk with
    | Except.error e => Except.error e
    | Except.ok gt => if gt then maxGo rest x kx else maxGo rest best bk

/-- Python `max(data, key=lambda x: x.get("score", 0), default=None)`
(line 146): `none` for an empty list, otherwise the first article with
the greatest key. -/
def maxByScore : List JValue → Except String (Option JValue)
| [] => Except.ok none
| a :: rest =>
  match getScoreDefaultZero a with
  | Except.error e => Except.error e
  | Except.ok k =>
    match maxGo rest a k with
    | Except.error e => Except.error e
    | Except.ok m => Except.ok (some m)

/-- Model of `process_data` (lines 127-149): count, average with a
guard against an empty score list, max by score with a truthiness check
on the winner, and an in-band error dict for any other operation. -/
def process_data (data : List JValue) (operation : String) : Except String JValue :=
  if operation = "count" then Except.ok (JValue.obj [("count", JValue.num (mkRat (data.length : Int) 1))])
  else if operation = "average" then
    match collectScores data with
    | Except.error e => Except.error e
    | Except.ok scores =>
      if scores.isEmpty then Except.ok (JValue.obj [("average_score", JValue.num 0)])
      else
        match sumNums scores with
        | Except.error e => Except.error e
        | Except.ok (ENum.fin total) =>
          Except.ok (JValue.obj [("average_score", JValue.num (ratDiv total (mkRat (scores.length : Int) 1)))])
        | Except.ok ENum.nan => Except.ok (JValue.obj [("average_score", JValue.nan)])
        | Except.ok (ENum.inf b) => Except.ok (JValue.obj [("average_score", JValue.inf b)])
  else if operation = "max" then
    match maxByScore data with
    | Except.error e => Except.error e
    | Except.ok none => Except.ok (JValue.obj [])
    | Except.ok (some m) =>
      if truthy m then Except.ok (JValue.obj [("max_score_article", m)])
      else Except.ok (JValue.obj [])
  else Except.ok (JValue.obj [("error", JValue.str "Invalid operation")])

/-- A registered tool whose every invocation raises, used to exercise
the dispatcher's error path on a concrete input. -/
def boomFunc : PyFunc :=
  { name := "boom", doc := none, parameters := none, returns := none,
    tool_definition := none, call := fun _ => Except.error "boom failed" }

/-- Whether a value is a dict. -/
def isObjVal : JValue → Bool
| JValue.obj _ => true
| _ => false

/-- The replies on which `run` provably completes with a string answer:
the parsed call either is absent or falsy, or is a dict that names a
registered tool and, when that name is `add`, carries a dict-valued
`arguments` field.  Outside this guard `run` can raise `AttributeError`
(truthy non-dict call, or `add` with non-dict arguments) or fall through
to `None` (unregistered name). -/
def replyGuard (tools : List PyFunc) (reply : String) : Bool :=
  match parse_tool_call reply with
  | none => true
  | some tc =>
    if truthy tc then
      match tc with
      | JValue.obj kvs =>
        (if isStrEq (dictGet kvs "name" JValue.null) "add"
         then isObjVal (dictGet kvs "arguments" (JValue.obj []))
         else true)
        && List.any tools (fun t => isStrEq (dictGet kvs "name" JValue.null) t.name)
      | _ => false
    else true

/-- Whether an article is a dict carrying no `score` key. -/
def noScoreObj : JValue → Bool
| JValue.obj kvs => !dictHasKey kvs "score"
| _ => false

theorem occursIn_cons_false {pat : List Char} {c : Char} {cs : List Char}
    (h : occursIn pat (c :: cs) = false) :
    matchAt pat (c :: cs) = none ∧ occursIn pat cs = false := by
  rw [occursIn, Bool.or_eq_false_iff] at h
  refine ⟨?_, h.2⟩
  cases hm : matchAt pat (c :: cs) with
  | none => rfl
  | some r => rw [hm] at h; simp at h

theorem stripTagsFuel_id : ∀ (fuel : Nat) (l : List Char), l.length ≤ fuel →
    occursIn closeTagChars l = false → occursIn openTagChars l = false →
    stripTagsFuel fuel l = l
| 0, l, hlen, _, _ => by
    interval_cases hl : l.length
    · rw [List.length_eq_zero] at hl
      subst hl
      rfl
| fuel + 1, [], _, _, _ => rfl
| fuel + 1, c :: cs, hlen, hc, ho => by
    obtain ⟨hc1, hc2⟩ := occursIn_cons_false hc
    obtain ⟨ho1, ho2⟩ := occursIn_cons_false ho
    rw [stripTagsFuel, hc1, ho1]
    have hlen2 : cs.length ≤ fuel := by
      have := hlen
      simp only [List.length_cons] at this
      omega
    rw [stripTagsFuel_id fuel cs hlen2 hc2 ho2]

/-- Claim C2, as frozen, is false: `parse_tool_call` on an input that
contains neither delimiter tag does not always return `none` — an
un-tagged input that is itself a valid JSON document decodes to a parsed
call.  Concretely, the tag-free input consisting of the JSON object
text with single key `a` parses to that object. -/
theorem parse_untagged_json_value_cx :
    containsToolCallTag "\x7b\"a\": 1\x7d" = false ∧
    parse_tool_call "\x7b\"a\": 1\x7d" = some (JValue.obj [("a", JValue.num 1)]) :=
  ⟨by decide, rfl⟩

/-- Claim C2 (amended): on an input string containing neither the
opening tag `<tool_call>` nor the closing tag `</tool_call>`, the tag
stripper is the identity, so `parse_tool_call` returns exactly the JSON
decode of the input itself: `none` precisely when the un-tagged text is
not a valid JSON document, and the decoded value when it is. -/
theorem parse_untagged_eq_json_decode (s : String)
    (h : containsToolCallTag s = false) : parse_tool_call s = json_loads s := by
  rw [containsToolCallTag, Bool.or_eq_false_iff] at h
  rw [parse_tool_call, json_loads, pyStripTags,
    stripTagsFuel_id s.toList.length s.toList (le_refl _) h.2 h.1]

/-- Witness for the amended claim C2 at a concrete tag-free input that
is not valid JSON. -/
theorem parse_untagged_eq_json_decode_witness :
    containsToolCallTag "not json" = false ∧
    parse_tool_call "not json" = json_loads "not json" :=
  ⟨by decide, parse_untagged_eq_json_decode "not json" (by decide)⟩

/-- Claim C1: when the assistant reply parses to a call naming no
registered tool, no tool is invoked, but contrary to the claim `run`
does not return the raw reply: the `for` loop falls through and the
function returns Python's implicit `None` (violating its own `-> str`
annotation).  Evaluated here on the concrete failing input: registry
holding only `add`, reply calling the unknown name `nope`. -/
theorem run_unknown_tool_returns_none :
    run_after_first [tool addFunc] (fun _ => "") []
      "<tool_call>\x7b\"name\": \"nope\", \"arguments\": \x7b\x7d\x7d</tool_call>"
    = Except.ok none := rfl

/-- Claim C3, as frozen, is false: a model reply consisting of the bare
JSON number `5` parses to a truthy non-dict value, so `tool_call.get`
raises an uncaught `AttributeError` and `run` does not return a string. -/
theorem run_truthy_nonobject_raises_cx :
    run_after_first [] (fun _ => "") [] "5"
    = Except.error "AttributeError: object has no attribute get" := rfl

/-- Claim C5: for the exact reply
`<tool_call>\x7b"name":"add","arguments":\x7b"num1":5,"num2":3\x7d\x7d</tool_call>`
with `add` registered, the parser yields the tagged call, the reconciler
rewrites the argument keys to `x := 5, y := 3`, the dispatcher locates
`add` in the registry, and invoking it returns `8`. -/
theorem add_scenario_pipeline :
    parse_tool_call "<tool_call>\x7b\"name\":\"add\",\"arguments\":\x7b\"num1\":5,\"num2\":3\x7d\x7d</tool_call>"
      = some (JValue.obj [("name", JValue.str "add"),
          ("arguments", JValue.obj [("num1", JValue.num 5), ("num2", JValue.num 3)])])
    ∧ reconcile_arguments (JValue.str "add") (JValue.obj [("num1", JValue.num 5), ("num2", JValue.num 3)])
      = Except.ok (JValue.obj [("x", JValue.num 5), ("y", JValue.num 3)])
    ∧ List.find? (fun t => isStrEq (JValue.str "add") t.name) [tool addFunc] = some (tool addFunc)
    ∧ invoke (tool addFunc) (JValue.obj [("x", JValue.num 5), ("y", JValue.num 3)])
      = Except.ok (JValue.num 8) :=
  ⟨rfl, rfl, rfl, rfl⟩

/-- Claim C8: `process_data` on the three-article score list `10, 20,
30` with operation `average` returns the dict with `average_score = 20`. -/
theorem process_data_average_concrete :
    process_data [JValue.obj [("score", JValue.num 10)], JValue.obj [("score", JValue.num 20)],
      JValue.obj [("score", JValue.num 30)]] "average"
    = Except.ok (JValue.obj [("average_score", JValue.num 20)]) := rfl

theorem isObjVal_true : ∀ {v : JValue}, isObjVal v = true → ∃ kvs, v = JValue.obj kvs
| JValue.obj kvs, _ => ⟨kvs, rfl⟩
| JValue.null, h => by simp [isObjVal] at h
| JValue.bool b, h => by simp [isObjVal] at h
| JValue.num q, h => by simp [isObjVal] at h
| JValue.nan, h => by simp [isObjVal] at h
| JValue.inf b, h => by simp [isObjVal] at h
| JValue.str s, h => by simp [isObjVal] at h
| JValue.arr xs, h => by simp [isObjVal] at h

theorem reconcile_pass_of_not_add {func_name : JValue} (arguments : JValue)
    (hn : isStrEq func_name "add" = false) :
    reconcile_arguments func_name arguments = Except.ok arguments := by
  cases arguments <;> simp [reconcile_arguments, hn]

/-- Claim C3 (amended): after the first model response, `run` terminates
without raising and returns a string whenever the reply parses to no
call or to a falsy value, or parses to a dict that names a registered
tool and, if that name is `add`, carries a dict-valued `arguments`
field.  Outside this guard the original claim fails: a truthy non-dict
call, or `add` with non-dict arguments, raises `AttributeError`, and an
unregistered name makes `run` return `None` instead of a string. -/
theorem run_guarded_returns_string (tools : List PyFunc) (model2 : List Message → String)
    (messages : List Message) (reply : String)
    (h : replyGuard tools reply = true) :
    ∃ r : String, run_after_first tools model2 messages reply = Except.ok (some r) := by
  rw [replyGuard] at h
  rw [run_after_first]
  cases hp : parse_tool_call reply with
  | none => exact ⟨reply, rfl⟩
  | some tc =>
    rw [hp] at h
    dsimp only at h ⊢
    cases ht : truthy tc with
    | false =>
      simp only [Bool.false_eq_true, if_false]
      exact ⟨reply, rfl⟩
    | true =>
      rw [if_pos ht] at h
      simp only [eq_self_iff_true, if_true]
      cases tc with
      | null => simp at h
      | bool b => simp at h
      | num q => simp at h
      | nan => simp at h
      | inf b => simp at h
      | str s => simp at h
      | arr xs => simp at h
      | obj kvs =>
        rw [Bool.and_eq_true] at h
        obtain ⟨hadd, hany⟩ := h
        rw [List.any_eq_true] at hany
        obtain ⟨t0, ht0, hp0⟩ := hany
        have hfs : (List.find? (fun t2 => isStrEq (dictGet kvs "name" JValue.null) t2.name) tools).isSome :=
          List.find?_isSome.mpr ⟨t0, ht0, hp0⟩
        obtain ⟨t, hf⟩ := Option.isSome_iff_exists.mp hfs
        have hr : ∃ args, reconcile_arguments (dictGet kvs "name" JValue.null)
            (dictGet kvs "arguments" (JValue.obj [])) = Except.ok args := by
          by_cases hn : isStrEq (dictGet kvs "name" JValue.null) "add" = true
          · rw [if_pos hn] at hadd
            obtain ⟨akvs, hak⟩ := isObjVal_true hadd
            rw [hak, reconcile_arguments, if_pos hn]
            exact ⟨_, rfl⟩
          · rw [Bool.not_eq_true] at hn
            exact ⟨_, reconcile_pass_of_not_add _ hn⟩
        obtain ⟨args, hr⟩ := hr
        simp only [hr, hf]
        cases hi : invoke t args with
        | ok result =>
          exact ⟨model2 (messages ++ [⟨"assistant", reply⟩,
            ⟨"user", "The result of " ++ t.name ++ " is: " ++ json_dumps result⟩]), rfl⟩
        | error e =>
          exact ⟨json_dumps (JValue.obj [("error", JValue.str e)]), rfl⟩

/-- Witness for the amended claim C3 at a concrete reply with no
parsable call: the guard holds and `run` returns a string. -/
theorem run_guarded_returns_string_witness :
    replyGuard [] "hello model" = true ∧
    ∃ r : String, run_after_first [] (fun _ => "") [] "hello model" = Except.ok (some r) :=
  ⟨by decide, run_guarded_returns_string [] (fun _ => "") [] "hello model" (by decide)⟩

/-- Claim C4: whenever the parsed call is a truthy dict whose name
matches a registered tool and invoking that tool with the reconciled
arguments raises with message `m`, `run` returns exactly the JSON
serialization of the dict `error = m` and propagates no exception. -/
theorem run_tool_error_returns_error_json (tools : List PyFunc) (model2 : List Message → String)
    (messages : List Message) (reply : String) (kvs : List (String × JValue))
    (t : PyFunc) (args : JValue) (m : String)
    (hp : parse_tool_call reply = some (JValue.obj kvs))
    (ht : truthy (JValue.obj kvs) = true)
    (hr : reconcile_arguments (dictGet kvs "name" JValue.null)
            (dictGet kvs "arguments" (JValue.obj [])) = Except.ok args)
    (hf : List.find? (fun t2 => isStrEq (dictGet kvs "name" JValue.null) t2.name) tools = some t)
    (hi : invoke t args = Except.error m) :
    run_after_first tools model2 messages reply
    = Except.ok (some (json_dumps (JValue.obj [("error", JValue.str m)]))) := by
  rw [run_after_first, hp]
  simp only [ht, if_true, hr, hf, hi]

/-- Witness for claim C4: the always-raising tool `boom`, called through
a concrete tagged reply, makes `run` return the serialized error dict. -/
theorem run_tool_error_returns_error_json_witness :
    run_after_first [boomFunc] (fun _ => "") []
      "<tool_call>\x7b\"name\": \"boom\", \"arguments\": \x7b\x7d\x7d</tool_call>"
    = Except.ok (some (json_dumps (JValue.obj [("error", JValue.str "boom failed")]))) :=
  run_tool_error_returns_error_json [boomFunc] (fun _ => "") []
    "<tool_call>\x7b\"name\": \"boom\", \"arguments\": \x7b\x7d\x7d</tool_call>"
    [("name", JValue.str "boom"), ("arguments", JValue.obj [])]
    boomFunc (JValue.obj []) "boom failed" rfl rfl rfl rfl rfl

/-- Claim C6: reconciliation is the identity transform for every parsed
call whose name is anything other than the string `add` — the argument
value reaches the dispatcher exactly as the parser produced it. -/
theorem reconcile_identity_off_table (func_name arguments : JValue)
    (h : func_name ≠ JValue.str "add") :
    reconcile_arguments func_name arguments = Except.ok arguments := by
  apply reconcile_pass_of_not_add
  cases func_name with
  | str s =>
    exact beq_eq_false_iff_ne.mpr (fun hs => h (by rw [hs]))
  | null => rfl
  | bool b => rfl
  | num q => rfl
  | nan => rfl
  | inf b => rfl
  | arr xs => rfl
  | obj kvs => rfl

/-- Witness for claim C6 at the concrete off-table name `mul`. -/
theorem reconcile_identity_off_table_witness :
    reconcile_arguments (JValue.str "mul") (JValue.obj [("a", JValue.num 1)])
    = Except.ok (JValue.obj [("a", JValue.num 1)]) :=
  reconcile_identity_off_table (JValue.str "mul") (JValue.obj [("a", JValue.num 1)])
    (by intro hc; injection hc with hs; exact absurd hs (by decide))

/-- Claim C7: applying the `tool` registration decorator twice attaches
the same `tool_definition` as applying it once — indeed the doubly
decorated function object is the singly decorated one — and decoration
never changes what the callable returns on any keyword arguments. -/
theorem tool_decorator_idempotent (func : PyFunc) :
    tool (tool func) = tool func ∧ ∀ kwargs, (tool func).call kwargs = func.call kwargs :=
  ⟨rfl, fun _ => rfl⟩

theorem collectScores_no_scores : ∀ (data : List JValue), List.all data noScoreObj = true →
    collectScores data = Except.ok []
| [], _ => rfl
| a :: rest, h => by
  rw [List.all_cons, Bool.and_eq_true] at h
  obtain ⟨ha, hrest⟩ := h
  cases a with
  | obj kvs =>
    have hd : dictHasKey kvs "score" = false := by
      have hb : (!dictHasKey kvs "score") = true := ha
      simpa using hb
    rw [collectScores]
    simp only [scoreMember, hd, Bool.false_eq_true, if_false]
    exact collectScores_no_scores rest hrest
  | null => simp [noScoreObj] at ha
  | bool b => simp [noScoreObj] at ha
  | num q => simp [noScoreObj] at ha
  | nan => simp [noScoreObj] at ha
  | inf b => simp [noScoreObj] at ha
  | str s => simp [noScoreObj] at ha
  | arr xs => simp [noScoreObj] at ha

/-- Claim C9: on any list of dicts none of which carries a `score` key
(the empty list included), `process_data` with operation `average`
collects no scores, takes the guarded `else`-branch instead of dividing
by the zero count, and returns the dict `average_score = 0`. -/
theorem process_data_average_no_scores (data : List JValue)
    (h : List.all data noScoreObj = true) :
    process_data data "average" = Except.ok (JValue.obj [("average_score", JValue.num 0)]) := by
  rw [process_data, if_neg (by decide : ¬("average" = "count")), if_pos rfl,
    collectScores_no_scores data h]
  rfl

/-- Witness for claim C9 at a concrete two-article list: one dict
without a `score` key and one empty dict. -/
theorem process_data_average_no_scores_witness :
    process_data [JValue.obj [("a", JValue.num 1)], JValue.obj []] "average"
    = Except.ok (JValue.obj [("average_score", JValue.num 0)]) :=
  process_data_average_no_scores [JValue.obj [("a", JValue.num 1)], JValue.obj []] (by decide)

/-- Claim C10: for every data list and every operation other than
`count`, `average` and `max`, `process_data` raises nothing and returns
exactly the in-band error dict `error = "Invalid operation"`. -/
theorem process_data_invalid_operation (data : List JValue) (operation : String)
    (h1 : operation ≠ "count") (h2 : operation ≠ "average") (h3 : operation ≠ "max") :
    process_data data operation
    = Except.ok (JValue.obj [("error", JValue.str "Invalid operation")]) := by
  rw [process_data, if_neg h1, if_neg h2, if_neg h3]

/-- Witness for claim C10 at the concrete unsupported operation `sum`. -/
theorem process_data_invalid_operation_witness :
    process_data [] "sum" = Except.ok (JValue.obj [("error", JValue.str "Invalid operation")]) :=
  process_data_invalid_operation [] "sum" (by decide) (by decide) (by decide)

/-- Supporting fact for the guard of the amended claim C3: the decoder
model accepts Python's default non-standard constants, so a bare `NaN`
reply (or a tagged `Infinity` one) parses to a truthy non-dict value,
falls outside `replyGuard`, and makes `run` raise `AttributeError`
exactly as the program does. -/
theorem json_constants_and_nan_reply :
    json_loads "NaN" = some JValue.nan
    ∧ json_loads "Infinity" = some (JValue.inf false)
    ∧ json_loads "-Infinity" = some (JValue.inf true)
    ∧ replyGuard [] "NaN" = false
    ∧ run_after_first [] (fun _ => "") [] "NaN"
        = Except.error "AttributeError: object has no attribute get"
    ∧ run_after_first [] (fun _ => "") [] "<tool_call>Infinity</tool_call>"
        = Except.error "AttributeError: object has no attribute get" :=
  ⟨rfl, rfl, rfl, rfl, rfl, rfl⟩
